import Mathlib

/-!
# Abstract Factory: the furniture families and the GUI families

A shallow embedding of `AbstractFactory.h` (furniture), `main.cpp` (GUI) and of
the test doubles of `tests/AbstractFactoryTests.cpp`.

* Writing to a stream is explicit state passing over `World`, the contents of
  the streams the code writes to.
* An abstract class becomes a structure with one field per virtual member
  function, the virtual destructor included (`destroy`). Every virtual may be
  overridden by a class written outside the repository, and an override may
  write to a stream: a member function returning `T` is `World → T × World`, and
  `void render()` and the destructor are `World → World`. Member functions are
  taken to return (no exception, no divergence).
* `std::unique_ptr<T>` is nullable, so it becomes `Option T`; `std::make_unique`
  is `some`; dereferencing a null pointer has no defined result, so a function
  that dereferences returns `Option`.
* Objects with automatic storage are destroyed at the end of their scope in
  reverse order of construction; a function parameter is destroyed after the
  locals.
* In `a << b` the left operand is evaluated before the right one (C++17), so
  `std::cout << "x" << f()` writes "x" before `f` runs.
-/

namespace AbstractFactory

/-! ## Streams -/

/-- The streams written to: `std::cout`, and the `std::ostringstream output`
local to the test `RenderComponents`. -/
inductive OStream where
  | cout
  | output
  deriving DecidableEq

/-- The text held by each stream. -/
structure World where
  cout : String
  output : String
  deriving DecidableEq

/-- All streams empty. -/
def World.empty : World := ⟨"", ""⟩

/-- Text held by stream `s`. -/
def World.get (w : World) : OStream → String
  | .cout => w.cout
  | .output => w.output

/-- Insertion `s << text`: appends `text` to stream `s`. -/
def OStream.write (s : OStream) (text : String) (w : World) : World :=
  match s with
  | .cout => ⟨w.cout ++ text, w.output⟩
  | .output => ⟨w.cout, w.output ++ text⟩

/-- Insertion `s << std::endl`: a newline (the flush is not observable). -/
def endl (s : OStream) (w : World) : World := s.write "\n" w

/-- Pointer `std::unique_ptr<T>`: either null or owning one object. -/
abbrev unique_ptr (α : Type) := Option α

/-- Function `std::make_unique<T>()`: never null. -/
def make_unique {α : Type} (a : α) : unique_ptr α := some a

/-! ## Furniture (`AbstractFactory.h`) -/

/-- Abstract product A: `sitOn`, `getStyle` and the virtual destructor. -/
structure Chair where
  sitOn : World → String × World
  getStyle : World → String × World
  destroy : World → World

/-- Abstract product B: `putOn`, `getStyle` and the virtual destructor. -/
structure Table where
  putOn : World → String × World
  getStyle : World → String × World
  destroy : World → World

def ModernChair : Chair where
  sitOn w := ("Sitting on a modern minimalist chair", w)
  getStyle w := ("Modern", w)
  destroy w := w

def ModernTable : Table where
  putOn w := ("Putting items on a sleek modern table", w)
  getStyle w := ("Modern", w)
  destroy w := w

def VictorianChair : Chair where
  sitOn w := ("Sitting on an ornate Victorian chair", w)
  getStyle w := ("Victorian", w)
  destroy w := w

def VictorianTable : Table where
  putOn w := ("Putting items on an elegant Victorian table", w)
  getStyle w := ("Victorian", w)
  destroy w := w

def ArtDecoChair : Chair where
  sitOn w := ("Sitting on a geometric Art Deco chair", w)
  getStyle w := ("Art Deco", w)
  destroy w := w

def ArtDecoTable : Table where
  putOn w := ("Putting items on a symmetrical Art Deco table", w)
  getStyle w := ("Art Deco", w)
  destroy w := w

/-- Abstract factory: the two pure virtual creation operations and the virtual
destructor. -/
structure FurnitureFactory where
  createChair : World → unique_ptr Chair × World
  createTable : World → unique_ptr Table × World
  destroy : World → World

/-- The helper method `FurnitureFactory::displayProducts`. The locals `table`
and `chair` are destroyed, in that order, when it returns. -/
def FurnitureFactory.displayProducts (self : FurnitureFactory) (w : World) : Option World :=
  let created := self.createChair w
  let chair := created.1
  let created := self.createTable created.2
  let table := created.1
  let w := created.2
  do
    let c ← chair
    let w := OStream.cout.write "Created " w
    let style := c.getStyle w
    let w := style.2 |> OStream.cout.write style.1 |> OStream.cout.write " furniture set:"
      |> endl OStream.cout
    let w := OStream.cout.write " - Chair: " w
    let sat := c.sitOn w
    let w := sat.2 |> OStream.cout.write sat.1 |> endl OStream.cout
    let t ← table
    let w := OStream.cout.write " - Table: " w
    let put := t.putOn w
    let w := put.2 |> OStream.cout.write put.1 |> endl OStream.cout
    let w := endl OStream.cout w
    let w := t.destroy w
    pure (c.destroy w)

def ModernFurnitureFactory : FurnitureFactory where
  createChair w := (make_unique ModernChair, w)
  createTable w := (make_unique ModernTable, w)
  destroy w := w

def VictorianFurnitureFactory : FurnitureFactory where
  createChair w := (make_unique VictorianChair, w)
  createTable w := (make_unique VictorianTable, w)
  destroy w := w

def ArtDecoFurnitureFactory : FurnitureFactory where
  createChair w := (make_unique ArtDecoChair, w)
  createTable w := (make_unique ArtDecoTable, w)
  destroy w := w

/-! ## GUI (`main.cpp`) -/

/-- Interface for Window: `void render()` and the virtual destructor. -/
structure Window where
  render : World → World
  destroy : World → World

/-- Interface for Scrollbar: `void render()` and the virtual destructor. -/
structure Scrollbar where
  render : World → World
  destroy : World → World

def WindowsWindow : Window where
  render := OStream.cout.write "Rendering Windows Window\n"
  destroy w := w

def WindowsScrollbar : Scrollbar where
  render := OStream.cout.write "Rendering Windows Scroll bar. Give me the header file.\n"
  destroy w := w

def LinuxWindow : Window where
  render := OStream.cout.write "Rendering Linux Window\n"
  destroy w := w

def LinuxScrollbar : Scrollbar where
  render := OStream.cout.write "Rendering Linux Scrollbar\n"
  destroy w := w

/-- Abstract factory of the GUI families: the two creation operations (not
`const`) and the virtual destructor. -/
structure GUIFactory where
  createWindow : World → unique_ptr Window × World
  createScrollbar : World → unique_ptr Scrollbar × World
  destroy : World → World

def WindowsGUIFactory : GUIFactory where
  createWindow w := (make_unique WindowsWindow, w)
  createScrollbar w := (make_unique WindowsScrollbar, w)
  destroy w := w

def LinuxGUIFactory : GUIFactory where
  createWindow w := (make_unique LinuxWindow, w)
  createScrollbar w := (make_unique LinuxScrollbar, w)
  destroy w := w

/-- Client code `buildGUI(std::unique_ptr<GUIFactory> factory)`. On return the
locals `scrollbar` and `window` are destroyed, in that order, and then the
parameter `factory`. -/
def buildGUI (factory : unique_ptr GUIFactory) (w : World) : Option World :=
  do
    let f ← factory
    let created := f.createWindow w
    let window := created.1
    let created := f.createScrollbar created.2
    let scrollbar := created.1
    let w := created.2
    let win ← window
    let w := win.render w
    let sb ← scrollbar
    let w := sb.render w
    let w := sb.destroy w
    let w := win.destroy w
    pure (f.destroy w)

/-! ## Test doubles (`tests/AbstractFactoryTests.cpp`) -/

/-- Class `TestWindow(o)`: renders into the stream it was constructed with. -/
def TestWindow (out : OStream) : Window where
  render := out.write "Test Window Rendered\n"
  destroy w := w

/-- Class `TestScrollbar(o)`. -/
def TestScrollbar (out : OStream) : Scrollbar where
  render := out.write "Test Scrollbar Rendered\n"
  destroy w := w

/-- Class `TestGUIFactory(o)`: hands its stream to the products it creates. -/
def TestGUIFactory (out : OStream) : GUIFactory where
  createWindow w := (make_unique (TestWindow out), w)
  createScrollbar w := (make_unique (TestScrollbar out), w)
  destroy w := w

/-- The body of `TEST(AbstractFactoryTest, RenderComponents)`: the value of the
comparison inside `EXPECT_EQ`, with `output` freshly constructed (empty). The
locals are destroyed only after the comparison. -/
def RenderComponents (w : World) : Option Bool :=
  let w : World := ⟨w.cout, ""⟩
  let factory := TestGUIFactory OStream.output
  let created := factory.createWindow w
  let window := created.1
  let created := factory.createScrollbar created.2
  let scrollbar := created.1
  let w := created.2
  do
    let win ← window
    let w := win.render w
    let sb ← scrollbar
    let w := sb.render w
    pure (w.get OStream.output == "Test Window Rendered\nTest Scrollbar Rendered\n")

/-! ## Declared interfaces

The member functions each abstract product class declares (destructors left
out), with their return types. -/

/-- Return types occurring in the product interfaces. -/
inductive CppType where
  | void
  | string
  deriving DecidableEq

/-- One declared virtual member function. -/
structure MethodDecl where
  name : String
  returns : CppType
  deriving DecidableEq

/-- Declarations of `class Chair`. -/
def Chair.declared : List MethodDecl := [⟨"sitOn", .string⟩, ⟨"getStyle", .string⟩]

/-- Declarations of `class Table`. -/
def Table.declared : List MethodDecl := [⟨"putOn", .string⟩, ⟨"getStyle", .string⟩]

/-- Declarations of `class Window`. -/
def Window.declared : List MethodDecl := [⟨"render", .void⟩]

/-- Declarations of `class Scrollbar`. -/
def Scrollbar.declared : List MethodDecl := [⟨"render", .void⟩]

/-- A query is a declared method that returns text to its caller. -/
def declaresQuery (methods : List MethodDecl) : Bool :=
  methods.any fun m => m.returns == CppType.string

/-! ## Reading output as lines -/

/-- Splits at every newline; `acc` holds the current line, reversed. Text after
the last newline is a final, unterminated line. -/
def splitLines : List Char → List Char → List String
  | [], acc => if acc.isEmpty then [] else [String.mk acc.reverse]
  | c :: cs, acc =>
    if c = '\n' then String.mk acc.reverse :: splitLines cs [] else splitLines cs (c :: acc)

/-- The lines of a text. -/
def lines (s : String) : List String := splitLines s.data []

/-- Each line followed by a newline. -/
def unlines : List String → String
  | [] => ""
  | l :: ls => l ++ "\n" ++ unlines ls

/-- The concrete furniture factories. -/
def furnitureFactories : List FurnitureFactory :=
  [ModernFurnitureFactory, VictorianFurnitureFactory, ArtDecoFurnitureFactory]

/-- The concrete GUI factories. -/
def guiFactories : List GUIFactory := [WindowsGUIFactory, LinuxGUIFactory]

/-- The style labels reported by the chair and the table a furniture factory
creates, the calls starting with the streams as in `w`. -/
def productStyles (f : FurnitureFactory) (w : World) : List String :=
  let chair := f.createChair w
  let table := f.createTable chair.2
  (chair.1.map fun c => (c.getStyle table.2).1).toList ++
    (table.1.map fun t => (t.getStyle table.2).1).toList

/-- The text a `render` leaves on `std::cout` when the streams start empty. -/
def renderedText (render : World → World) : String := (render World.empty).cout

/-- What a run that starts with empty streams leaves on `std::cout`. -/
def console (run : World → Option World) : Option String :=
  (run World.empty).map World.cout

/-! ## Implementations written against the interfaces alone -/

/-- A factory whose chair and table come from different families. -/
def MixedFurnitureFactory : FurnitureFactory where
  createChair w := (make_unique ModernChair, w)
  createTable w := (make_unique VictorianTable, w)
  destroy w := w

/-- A GUI factory whose `createWindow` logs to `std::cout` before it returns a
`WindowsWindow`. -/
def LoggingGUIFactory : GUIFactory where
  createWindow w := (make_unique WindowsWindow, OStream.cout.write "Creating window\n" w)
  createScrollbar w := (make_unique WindowsScrollbar, w)
  destroy w := w

/-- A window whose destructor writes to `std::cout`. -/
def NoisyWindow : Window where
  render := OStream.cout.write "Rendering Noisy Window\n"
  destroy := OStream.cout.write "Window destroyed\n"

/-- A GUI factory whose window has a writing destructor. -/
def NoisyGUIFactory : GUIFactory where
  createWindow w := (make_unique NoisyWindow, w)
  createScrollbar w := (make_unique LinuxScrollbar, w)
  destroy w := w

/-- A chair whose `getStyle` writes to `std::cout` before returning its label. -/
def ChattyChair : Chair where
  sitOn w := ("Sitting on a chatty chair", w)
  getStyle w := ("Chatty", OStream.cout.write "[getStyle]" w)
  destroy w := w

/-- A furniture factory creating a `ChattyChair` and a `ModernTable`. -/
def ChattyFurnitureFactory : FurnitureFactory where
  createChair w := (make_unique ChattyChair, w)
  createTable w := (make_unique ModernTable, w)
  destroy w := w

/-- A chair whose `sitOn` text spans two lines; it writes nothing itself. -/
def TwoLineChair : Chair where
  sitOn w := ("a\nb", w)
  getStyle w := ("Plain", w)
  destroy w := w

/-- A furniture factory creating a `TwoLineChair` and a `ModernTable`. -/
def TwoLineFurnitureFactory : FurnitureFactory where
  createChair w := (make_unique TwoLineChair, w)
  createTable w := (make_unique ModernTable, w)
  destroy w := w

/-! ## Basic facts -/

theorem write_write (s : OStream) (a b : String) (w : World) :
    s.write b (s.write a w) = s.write (a ++ b) w := by
  cases s <;> simp [OStream.write, String.append_assoc]

theorem get_write_same (s : OStream) (a : String) (w : World) :
    (s.write a w).get s = w.get s ++ a := by
  cases s <;> rfl

theorem mem_furnitureFactories (f : FurnitureFactory) (h : f ∈ furnitureFactories) :
    f = ModernFurnitureFactory ∨ f = VictorianFurnitureFactory ∨ f = ArtDecoFurnitureFactory := by
  simpa [furnitureFactories] using h

theorem mem_guiFactories (f : GUIFactory) (h : f ∈ guiFactories) :
    f = WindowsGUIFactory ∨ f = LinuxGUIFactory := by
  simpa [guiFactories] using h

/-- The composition law of `buildGUI`: the two creations, render of the window,
render of the scrollbar, then the three destructors. -/
theorem buildGUI_eq (f : GUIFactory) (win : Window) (sb : Scrollbar) (w w1 w2 : World)
    (hw : f.createWindow w = (some win, w1)) (hs : f.createScrollbar w1 = (some sb, w2)) :
    buildGUI (make_unique f) w
      = some (f.destroy (win.destroy (sb.destroy (sb.render (win.render w2))))) := by
  simp [buildGUI, make_unique, hw, hs]

/-- The text `displayProducts` writes when the creation operations, the three
product methods it calls and the two product destructors write nothing. -/
theorem displayProducts_eq (f : FurnitureFactory) (chair : Chair) (table : Table)
    (style sit put : String) (w : World)
    (hc : f.createChair w = (some chair, w)) (ht : f.createTable w = (some table, w))
    (hstyle : ∀ v, chair.getStyle v = (style, v)) (hsit : ∀ v, chair.sitOn v = (sit, v))
    (hput : ∀ v, table.putOn v = (put, v))
    (hdc : ∀ v, chair.destroy v = v) (hdt : ∀ v, table.destroy v = v) :
    f.displayProducts w = some (OStream.cout.write (unlines
      ["Created " ++ style ++ " furniture set:", " - Chair: " ++ sit,
        " - Table: " ++ put, ""]) w) := by
  simp only [FurnitureFactory.displayProducts, hc, ht, hstyle, hsit, hput, hdc, hdt, endl,
    write_write, unlines, String.append_assoc, String.append_empty, String.empty_append,
    bind, Option.bind, pure]

/-- The text `buildGUI` writes for the Windows factory. -/
theorem buildGUI_windows (w : World) :
    buildGUI (make_unique WindowsGUIFactory) w = some (OStream.cout.write
      ("Rendering Windows Window\n" ++
        "Rendering Windows Scroll bar. Give me the header file.\n") w) := by
  show some (OStream.cout.write _ (OStream.cout.write _ w)) = _
  rw [write_write]

/-- The text `buildGUI` writes for the Linux factory. -/
theorem buildGUI_linux (w : World) :
    buildGUI (make_unique LinuxGUIFactory) w = some (OStream.cout.write
      ("Rendering Linux Window\n" ++ "Rendering Linux Scrollbar\n") w) := by
  show some (OStream.cout.write _ (OStream.cout.write _ w)) = _
  rw [write_write]

/-- A newline-free line followed by a newline is split off whole. -/
theorem splitLines_line (l : List Char) (h : '\n' ∉ l) (rest acc : List Char) :
    splitLines (l ++ '\n' :: rest) acc = String.mk (acc.reverse ++ l) :: splitLines rest [] := by
  induction l generalizing acc with
  | nil => simp [splitLines]
  | cons c cs ih =>
    have hc : c ≠ '\n' := fun e => h (by simp [e])
    have hcs : '\n' ∉ cs := fun m => h (List.mem_cons_of_mem _ m)
    simp [splitLines, hc, ih hcs]

/-- Reading back newline-free lines that were each written with a newline. -/
theorem lines_unlines (ls : List String) (h : ∀ l ∈ ls, '\n' ∉ l.data) :
    lines (unlines ls) = ls := by
  induction ls with
  | nil => rfl
  | cons l ls ih =>
    have h1 : '\n' ∉ l.data := h l (List.mem_cons_self _ _)
    have h2 : lines (unlines ls) = ls := ih fun x hx => h x (List.mem_cons_of_mem _ hx)
    have e : (unlines (l :: ls)).data = l.data ++ '\n' :: (unlines ls).data := by
      simp [unlines, String.data_append]
    unfold lines at h2 ⊢
    rw [e, splitLines_line l.data h1, h2]
    simp

/-! ## Claims -/

/-- C1. Each concrete furniture factory creates a chair and a table whose
`getStyle()` is the label of the factory's family: "Modern", "Victorian",
"Art Deco", on every call, whatever the streams hold at the call. -/
theorem furniture_family_consistency :
    (∀ w v : World,
      ((ModernFurnitureFactory.createChair w).1.map fun c => (c.getStyle v).1)
        = some "Modern" ∧
      ((ModernFurnitureFactory.createTable w).1.map fun t => (t.getStyle v).1)
        = some "Modern" ∧
      ((VictorianFurnitureFactory.createChair w).1.map fun c => (c.getStyle v).1)
        = some "Victorian" ∧
      ((VictorianFurnitureFactory.createTable w).1.map fun t => (t.getStyle v).1)
        = some "Victorian" ∧
      ((ArtDecoFurnitureFactory.createChair w).1.map fun c => (c.getStyle v).1)
        = some "Art Deco" ∧
      ((ArtDecoFurnitureFactory.createTable w).1.map fun t => (t.getStyle v).1)
        = some "Art Deco") := by
  intro w v
  refine ⟨rfl, rfl, rfl, rfl, rfl, rfl⟩

/-- C2. `buildGUI` with the Windows factory appends to `std::cout` exactly the
two lines "Rendering Windows Window" and "Rendering Windows Scroll bar. Give me
the header file.", with the Linux factory exactly "Rendering Linux Window" and
"Rendering Linux Scrollbar"; each line ends in a newline and the other stream
is untouched. -/
theorem buildGUI_concrete_output :
    (∀ w : World, buildGUI (make_unique WindowsGUIFactory) w
        = some (OStream.cout.write (unlines ["Rendering Windows Window",
            "Rendering Windows Scroll bar. Give me the header file."]) w)) ∧
    (∀ w : World, buildGUI (make_unique LinuxGUIFactory) w
        = some (OStream.cout.write (unlines ["Rendering Linux Window",
            "Rendering Linux Scrollbar"]) w)) ∧
    (console (buildGUI (make_unique WindowsGUIFactory))).map lines
      = some ["Rendering Windows Window",
          "Rendering Windows Scroll bar. Give me the header file."] ∧
    (console (buildGUI (make_unique LinuxGUIFactory))).map lines
      = some ["Rendering Linux Window", "Rendering Linux Scrollbar"] := by
  refine ⟨fun w => ?_, fun w => ?_, by decide, by decide⟩
  · rw [buildGUI_windows]; rfl
  · rw [buildGUI_linux]; rfl

/-- C3, as stated, fails: it is not the case that for every `GUIFactory` that
yields a window writing `tw` and a scrollbar writing `ts`, `buildGUI` emits `tw`
followed by `ts` and nothing else. `LoggingGUIFactory` puts "Creating window"
in front of the two rendered lines, and the destructor of the window of
`NoisyGUIFactory` puts "Window destroyed" behind them. -/
theorem buildGUI_emits_more_counterexample :
    ¬ (∀ (factory : GUIFactory) (window : Window) (scrollbar : Scrollbar) (tw ts : String)
        (w : World),
        (factory.createWindow w).1 = some window →
        (factory.createScrollbar (factory.createWindow w).2).1 = some scrollbar →
        (∀ v, window.render v = OStream.cout.write tw v) →
        (∀ v, scrollbar.render v = OStream.cout.write ts v) →
        buildGUI (make_unique factory) w = some (OStream.cout.write (tw ++ ts) w)) ∧
    console (buildGUI (make_unique LoggingGUIFactory)) = some
      "Creating window\nRendering Windows Window\nRendering Windows Scroll bar. Give me the header file.\n" ∧
    console (buildGUI (make_unique NoisyGUIFactory)) = some
      "Rendering Noisy Window\nRendering Linux Scrollbar\nWindow destroyed\n" := by
  refine ⟨fun h => ?_, by decide, by decide⟩
  have e := h LoggingGUIFactory WindowsWindow WindowsScrollbar "Rendering Windows Window\n"
    "Rendering Windows Scroll bar. Give me the header file.\n" World.empty rfl rfl
    (fun _ => rfl) (fun _ => rfl)
  exact absurd e (by decide)

/-- C3, amended. For every `GUIFactory` whose `createWindow` yields `window` and
whose `createScrollbar` yields `scrollbar`, the renders writing `tw` and `ts` to
a stream: `buildGUI` leaves, after whatever the two creation operations wrote,
`tw` immediately followed by `ts`, and after that only what the destructors of
the scrollbar, the window and the factory write. When the creation operations
and the destructors write nothing, the stream receives exactly `tw` followed by
`ts` and nothing else is emitted. -/
theorem buildGUI_window_then_scrollbar (factory : GUIFactory) (window : Window)
    (scrollbar : Scrollbar) (s : OStream) (tw ts : String) (w w1 w2 : World)
    (hcw : factory.createWindow w = (some window, w1))
    (hcs : factory.createScrollbar w1 = (some scrollbar, w2))
    (hw : ∀ v, window.render v = s.write tw v)
    (hs : ∀ v, scrollbar.render v = s.write ts v) :
    buildGUI (make_unique factory) w = some (factory.destroy (window.destroy
      (scrollbar.destroy (s.write (tw ++ ts) w2)))) ∧
    (w1 = w → w2 = w → (∀ v, scrollbar.destroy v = v) → (∀ v, window.destroy v = v) →
      (∀ v, factory.destroy v = v) →
      buildGUI (make_unique factory) w = some (s.write (tw ++ ts) w) ∧
      (buildGUI (make_unique factory) w).map (fun w3 => w3.get s)
        = some (w.get s ++ (tw ++ ts))) := by
  have h : buildGUI (make_unique factory) w = some (factory.destroy (window.destroy
      (scrollbar.destroy (s.write (tw ++ ts) w2)))) := by
    rw [buildGUI_eq factory window scrollbar w w1 w2 hcw hcs, hs, hw, write_write]
  refine ⟨h, fun _ e2 hds hdw hdf => ?_⟩
  rw [h, hdf, hdw, hds, e2, Option.map_some', get_write_same]
  exact ⟨rfl, rfl⟩

/-- C3, at the factory of the test: the stream `output` ends up holding
"Test Window Rendered" then "Test Scrollbar Rendered", which is what
`RenderComponents` expects. -/
theorem buildGUI_window_then_scrollbar_witness :
    (buildGUI (make_unique (TestGUIFactory OStream.output)) World.empty
        = some (OStream.output.write ("Test Window Rendered\n" ++ "Test Scrollbar Rendered\n")
            World.empty)) ∧
    RenderComponents World.empty = some true :=
  ⟨((buildGUI_window_then_scrollbar (TestGUIFactory OStream.output)
      (TestWindow OStream.output) (TestScrollbar OStream.output) OStream.output
      "Test Window Rendered\n" "Test Scrollbar Rendered\n" World.empty World.empty World.empty
      rfl rfl (fun _ => rfl) (fun _ => rfl)).2 rfl rfl (fun _ => rfl) (fun _ => rfl)
      (fun _ => rfl)).1, by decide⟩

/-- C4, as stated, fails: it is not the case that every GUI product interface
declares a query returning a label; `Window` and `Scrollbar` declare only
`void render()`, while `Chair` and `Table` do declare `getStyle`. -/
theorem gui_interfaces_declare_no_query :
    ¬ (∀ i ∈ [Window.declared, Scrollbar.declared], declaresQuery i = true) ∧
    declaresQuery Window.declared = false ∧ declaresQuery Scrollbar.declared = false ∧
    declaresQuery Chair.declared = true ∧ declaresQuery Table.declared = true := by
  decide

/-- C4, amended. The GUI product interfaces declare no query, only `render`; for
each concrete GUI factory, the line each created product renders names the
platform of the factory: it starts with "Rendering Windows " for
`WindowsGUIFactory` and with "Rendering Linux " for `LinuxGUIFactory`. -/
theorem gui_family_consistency_by_render :
    (∀ i ∈ [Window.declared, Scrollbar.declared], declaresQuery i = false) ∧
    (∀ w0 : World,
      (∃ win rest, WindowsGUIFactory.createWindow w0 = (some win, w0) ∧
        ∀ w, win.render w = OStream.cout.write ("Rendering Windows " ++ rest) w) ∧
      (∃ sb rest, WindowsGUIFactory.createScrollbar w0 = (some sb, w0) ∧
        ∀ w, sb.render w = OStream.cout.write ("Rendering Windows " ++ rest) w) ∧
      (∃ win rest, LinuxGUIFactory.createWindow w0 = (some win, w0) ∧
        ∀ w, win.render w = OStream.cout.write ("Rendering Linux " ++ rest) w) ∧
      (∃ sb rest, LinuxGUIFactory.createScrollbar w0 = (some sb, w0) ∧
        ∀ w, sb.render w = OStream.cout.write ("Rendering Linux " ++ rest) w)) := by
  refine ⟨by decide, fun _ => ⟨?_, ?_, ?_, ?_⟩⟩
  · exact ⟨WindowsWindow, "Window\n", rfl, fun _ => rfl⟩
  · exact ⟨WindowsScrollbar, "Scroll bar. Give me the header file.\n", rfl, fun _ => rfl⟩
  · exact ⟨LinuxWindow, "Window\n", rfl, fun _ => rfl⟩
  · exact ⟨LinuxScrollbar, "Scrollbar\n", rfl, fun _ => rfl⟩

/-- C5. Both products of the Victorian factory report "Victorian", never
"Modern" or "Art Deco"; and across the three concrete furniture factories, a
style reported by a product of one factory is never a style reported by a
product of another. This holds whatever the streams hold at the calls. -/
theorem furniture_families_never_mixed :
    ∀ w : World,
    productStyles VictorianFurnitureFactory w = ["Victorian", "Victorian"] ∧
    (∀ s ∈ productStyles VictorianFurnitureFactory w, s ≠ "Modern" ∧ s ≠ "Art Deco") ∧
    (furnitureFactories.map fun f => productStyles f w).Pairwise
      (fun styles1 styles2 => ∀ a ∈ styles1, ∀ b ∈ styles2, a ≠ b) ∧
    (∀ f ∈ furnitureFactories, (productStyles f w).length = 2) := by
  intro w
  have v : productStyles VictorianFurnitureFactory w = ["Victorian", "Victorian"] := rfl
  have e : (furnitureFactories.map fun f => productStyles f w)
      = [["Modern", "Modern"], ["Victorian", "Victorian"], ["Art Deco", "Art Deco"]] := rfl
  refine ⟨v, ?_, ?_, fun f hf => ?_⟩
  · rw [v]; decide
  · rw [e]; decide
  · rcases mem_furnitureFactories f hf with rfl | rfl | rfl <;> rfl

/-- C6. Any two calls of a creation operation of a concrete furniture factory,
whatever the streams hold at either call, yield products with identical
`sitOn`/`putOn` and `getStyle` texts; any two calls of a creation operation of a
concrete GUI factory yield products that render the same fixed text whatever
the streams hold; and `buildGUI` with a concrete factory writes one fixed text,
so running it twice writes that text twice. -/
theorem creation_and_composition_deterministic :
    (∀ f ∈ furnitureFactories, ∀ w1 w2 : World,
      (∃ c1 c2, f.createChair w1 = (some c1, w1) ∧ f.createChair w2 = (some c2, w2) ∧
        ∀ v1 v2, (c1.sitOn v1).1 = (c2.sitOn v2).1 ∧ (c1.getStyle v1).1 = (c2.getStyle v2).1) ∧
      (∃ t1 t2, f.createTable w1 = (some t1, w1) ∧ f.createTable w2 = (some t2, w2) ∧
        ∀ v1 v2, (t1.putOn v1).1 = (t2.putOn v2).1 ∧
          (t1.getStyle v1).1 = (t2.getStyle v2).1)) ∧
    (∀ f ∈ guiFactories, ∃ tw ts : String, ∀ w1 w2 : World,
      (∃ x1 x2, f.createWindow w1 = (some x1, w1) ∧ f.createWindow w2 = (some x2, w2) ∧
        ∀ v1 v2, x1.render v1 = OStream.cout.write tw v1 ∧
          x2.render v2 = OStream.cout.write tw v2) ∧
      (∃ y1 y2, f.createScrollbar w1 = (some y1, w1) ∧ f.createScrollbar w2 = (some y2, w2) ∧
        ∀ v1 v2, y1.render v1 = OStream.cout.write ts v1 ∧
          y2.render v2 = OStream.cout.write ts v2)) ∧
    (∀ f ∈ guiFactories, ∃ text : String,
      (∀ w, buildGUI (make_unique f) w = some (OStream.cout.write text w)) ∧
      (∀ w, (buildGUI (make_unique f) w).bind (buildGUI (make_unique f))
        = some (OStream.cout.write text (OStream.cout.write text w))) ∧
      console (buildGUI (make_unique f)) = some text) := by
  refine ⟨fun f hf c1 c2 => ?_, fun f hf => ?_, fun f hf => ?_⟩
  · rcases mem_furnitureFactories f hf with rfl | rfl | rfl
    · exact ⟨⟨ModernChair, ModernChair, rfl, rfl, fun _ _ => ⟨rfl, rfl⟩⟩,
        ⟨ModernTable, ModernTable, rfl, rfl, fun _ _ => ⟨rfl, rfl⟩⟩⟩
    · exact ⟨⟨VictorianChair, VictorianChair, rfl, rfl, fun _ _ => ⟨rfl, rfl⟩⟩,
        ⟨VictorianTable, VictorianTable, rfl, rfl, fun _ _ => ⟨rfl, rfl⟩⟩⟩
    · exact ⟨⟨ArtDecoChair, ArtDecoChair, rfl, rfl, fun _ _ => ⟨rfl, rfl⟩⟩,
        ⟨ArtDecoTable, ArtDecoTable, rfl, rfl, fun _ _ => ⟨rfl, rfl⟩⟩⟩
  · rcases mem_guiFactories f hf with rfl | rfl
    · exact ⟨"Rendering Windows Window\n",
        "Rendering Windows Scroll bar. Give me the header file.\n", fun _ _ =>
        ⟨⟨WindowsWindow, WindowsWindow, rfl, rfl, fun _ _ => ⟨rfl, rfl⟩⟩,
          ⟨WindowsScrollbar, WindowsScrollbar, rfl, rfl, fun _ _ => ⟨rfl, rfl⟩⟩⟩⟩
    · exact ⟨"Rendering Linux Window\n", "Rendering Linux Scrollbar\n", fun _ _ =>
        ⟨⟨LinuxWindow, LinuxWindow, rfl, rfl, fun _ _ => ⟨rfl, rfl⟩⟩,
          ⟨LinuxScrollbar, LinuxScrollbar, rfl, rfl, fun _ _ => ⟨rfl, rfl⟩⟩⟩⟩
  · rcases mem_guiFactories f hf with rfl | rfl
    · exact ⟨_, buildGUI_windows,
        fun w => by rw [buildGUI_windows, Option.some_bind, buildGUI_windows], by decide⟩
    · exact ⟨_, buildGUI_linux,
        fun w => by rw [buildGUI_linux, Option.some_bind, buildGUI_linux], by decide⟩

/-- C7. Whichever concrete factory is supplied, the composition has the same
shape: `buildGUI` writes two lines, each starting with "Rendering "; and
`displayProducts` writes four lines, "Created ... furniture set:",
" - Chair: ...", " - Table: ..." and an empty line. -/
theorem composition_same_shape :
    (∀ f ∈ guiFactories, ∃ a b : String,
      (console (buildGUI (make_unique f))).map lines
        = some ["Rendering " ++ a, "Rendering " ++ b]) ∧
    (∀ f ∈ guiFactories,
      ((console (buildGUI (make_unique f))).map fun t => (lines t).length) = some 2) ∧
    (∀ f ∈ furnitureFactories, ∃ style sit put : String,
      (console f.displayProducts).map lines
        = some ["Created " ++ style ++ " furniture set:", " - Chair: " ++ sit,
            " - Table: " ++ put, ""]) ∧
    (∀ f ∈ furnitureFactories,
      ((console f.displayProducts).map fun t => (lines t).length) = some 4) := by
  refine ⟨fun f hf => ?_, fun f hf => ?_, fun f hf => ?_, fun f hf => ?_⟩
  · rcases mem_guiFactories f hf with rfl | rfl
    · exact ⟨"Windows Window", "Windows Scroll bar. Give me the header file.", by decide⟩
    · exact ⟨"Linux Window", "Linux Scrollbar", by decide⟩
  · rcases mem_guiFactories f hf with rfl | rfl <;> decide
  · rcases mem_furnitureFactories f hf with rfl | rfl | rfl
    · exact ⟨"Modern", "Sitting on a modern minimalist chair",
        "Putting items on a sleek modern table", by decide⟩
    · exact ⟨"Victorian", "Sitting on an ornate Victorian chair",
        "Putting items on an elegant Victorian table", by decide⟩
    · exact ⟨"Art Deco", "Sitting on a geometric Art Deco chair",
        "Putting items on a symmetrical Art Deco table", by decide⟩
  · rcases mem_furnitureFactories f hf with rfl | rfl | rfl <;> decide

/-- C8. The six furniture action texts are pairwise different, whatever the
streams hold at the calls, and so are the four texts rendered by the GUI
products. -/
theorem action_texts_distinct :
    (∀ w : World,
      [(ModernChair.sitOn w).1, (VictorianChair.sitOn w).1, (ArtDecoChair.sitOn w).1,
        (ModernTable.putOn w).1, (VictorianTable.putOn w).1, (ArtDecoTable.putOn w).1].Pairwise
          (fun a b => a ≠ b)) ∧
    [renderedText WindowsWindow.render, renderedText WindowsScrollbar.render,
      renderedText LinuxWindow.render, renderedText LinuxScrollbar.render].Pairwise
        (fun a b => a ≠ b) ∧
    (∀ w, WindowsWindow.render w
        = OStream.cout.write (renderedText WindowsWindow.render) w) ∧
    (∀ w, WindowsScrollbar.render w
        = OStream.cout.write (renderedText WindowsScrollbar.render) w) ∧
    (∀ w, LinuxWindow.render w = OStream.cout.write (renderedText LinuxWindow.render) w) ∧
    (∀ w, LinuxScrollbar.render w
        = OStream.cout.write (renderedText LinuxScrollbar.render) w) := by
  refine ⟨fun w => ?_, by decide, fun _ => rfl, fun _ => rfl, fun _ => rfl, fun _ => rfl⟩
  show ["Sitting on a modern minimalist chair", "Sitting on an ornate Victorian chair",
    "Sitting on a geometric Art Deco chair", "Putting items on a sleek modern table",
    "Putting items on an elegant Victorian table",
    "Putting items on a symmetrical Art Deco table"].Pairwise (fun a b => a ≠ b)
  decide

/-- C9. Every creation operation of each of the five concrete factories returns
a product, never null, whatever the streams hold at the call; the furniture
products have non-empty action text and non-empty style label, and the GUI
products render a non-empty text. -/
theorem role_completeness :
    (∀ f ∈ furnitureFactories, ∀ w : World,
      (∃ c, f.createChair w = (some c, w) ∧
        ∀ v, (c.sitOn v).1 ≠ "" ∧ (c.getStyle v).1 ≠ "") ∧
      (∃ t, f.createTable w = (some t, w) ∧
        ∀ v, (t.putOn v).1 ≠ "" ∧ (t.getStyle v).1 ≠ "")) ∧
    (∀ f ∈ guiFactories, ∀ w0 : World,
      (∃ win text, f.createWindow w0 = (some win, w0) ∧ text ≠ "" ∧
        ∀ w, win.render w = OStream.cout.write text w) ∧
      (∃ sb text, f.createScrollbar w0 = (some sb, w0) ∧ text ≠ "" ∧
        ∀ w, sb.render w = OStream.cout.write text w)) := by
  refine ⟨fun f hf _ => ?_, fun f hf _ => ?_⟩
  · rcases mem_furnitureFactories f hf with rfl | rfl | rfl
    · exact ⟨⟨ModernChair, rfl, fun _ =>
          ⟨(by decide : "Sitting on a modern minimalist chair" ≠ ""),
            (by decide : "Modern" ≠ "")⟩⟩,
        ⟨ModernTable, rfl, fun _ =>
          ⟨(by decide : "Putting items on a sleek modern table" ≠ ""),
            (by decide : "Modern" ≠ "")⟩⟩⟩
    · exact ⟨⟨VictorianChair, rfl, fun _ =>
          ⟨(by decide : "Sitting on an ornate Victorian chair" ≠ ""),
            (by decide : "Victorian" ≠ "")⟩⟩,
        ⟨VictorianTable, rfl, fun _ =>
          ⟨(by decide : "Putting items on an elegant Victorian table" ≠ ""),
            (by decide : "Victorian" ≠ "")⟩⟩⟩
    · exact ⟨⟨ArtDecoChair, rfl, fun _ =>
          ⟨(by decide : "Sitting on a geometric Art Deco chair" ≠ ""),
            (by decide : "Art Deco" ≠ "")⟩⟩,
        ⟨ArtDecoTable, rfl, fun _ =>
          ⟨(by decide : "Putting items on a symmetrical Art Deco table" ≠ ""),
            (by decide : "Art Deco" ≠ "")⟩⟩⟩
  · rcases mem_guiFactories f hf with rfl | rfl
    · exact ⟨⟨WindowsWindow, "Rendering Windows Window\n", rfl, by decide, fun _ => rfl⟩,
        ⟨WindowsScrollbar, "Rendering Windows Scroll bar. Give me the header file.\n", rfl,
          by decide, fun _ => rfl⟩⟩
    · exact ⟨⟨LinuxWindow, "Rendering Linux Window\n", rfl, by decide, fun _ => rfl⟩,
        ⟨LinuxScrollbar, "Rendering Linux Scrollbar\n", rfl, by decide, fun _ => rfl⟩⟩

/-- C10, as stated, fails for implementations outside the repository. Even
among factories whose operations write nothing, the output need not be four
lines: with `sitOn()` returning a text that holds a newline
(`TwoLineFurnitureFactory`) it is five. And when `getStyle()` itself writes to
`std::cout` (`ChattyFurnitureFactory`), what it writes lands inside the header
line, after "Created ". -/
theorem displayProducts_not_always_four_lines :
    ¬ (∀ (f : FurnitureFactory) (chair : Chair) (table : Table) (style sit put : String),
        f.createChair World.empty = (some chair, World.empty) →
        f.createTable World.empty = (some table, World.empty) →
        (∀ v, chair.getStyle v = (style, v)) → (∀ v, chair.sitOn v = (sit, v)) →
        (∀ v, table.putOn v = (put, v)) →
        (console f.displayProducts).map lines = some
          ["Created " ++ style ++ " furniture set:", " - Chair: " ++ sit,
            " - Table: " ++ put, ""]) ∧
    (console TwoLineFurnitureFactory.displayProducts).map lines = some
      ["Created Plain furniture set:", " - Chair: a", "b",
        " - Table: Putting items on a sleek modern table", ""] ∧
    (console ChattyFurnitureFactory.displayProducts).map lines = some
      ["Created [getStyle]Chatty furniture set:", " - Chair: Sitting on a chatty chair",
        " - Table: Putting items on a sleek modern table", ""] := by
  refine ⟨fun h => ?_, by decide, by decide⟩
  have e := h TwoLineFurnitureFactory TwoLineChair ModernTable "Plain" "a\nb"
    "Putting items on a sleek modern table" rfl rfl (fun _ => rfl) (fun _ => rfl)
    (fun _ => rfl)
  exact absurd e (by decide)

/-- C10, amended. For every `FurnitureFactory` that creates `chair` and `table`
and whose creation operations, `chair.getStyle()`, `chair.sitOn()`,
`table.putOn()` and the two product destructors write nothing,
`displayProducts` appends to `std::cout` exactly four newline-terminated texts,
in this order: "Created S furniture set:" with S the style of the chair (the
style of the table does not occur), " - Chair: " with `chair.sitOn()`,
" - Table: " with `table.putOn()`, and an empty one; read back these are four
lines when the three texts hold no newline. For the three concrete factories
the header names the family of the factory and the chair line precedes the
table line. -/
theorem displayProducts_four_lines :
    (∀ (f : FurnitureFactory) (chair : Chair) (table : Table) (style sit put : String)
      (w : World),
      f.createChair w = (some chair, w) → f.createTable w = (some table, w) →
      (∀ v, chair.getStyle v = (style, v)) → (∀ v, chair.sitOn v = (sit, v)) →
      (∀ v, table.putOn v = (put, v)) →
      (∀ v, chair.destroy v = v) → (∀ v, table.destroy v = v) →
      f.displayProducts w = some (OStream.cout.write (unlines
        ["Created " ++ style ++ " furniture set:", " - Chair: " ++ sit,
          " - Table: " ++ put, ""]) w)) ∧
    (∀ (f : FurnitureFactory) (chair : Chair) (table : Table) (style sit put : String),
      f.createChair World.empty = (some chair, World.empty) →
      f.createTable World.empty = (some table, World.empty) →
      (∀ v, chair.getStyle v = (style, v)) → (∀ v, chair.sitOn v = (sit, v)) →
      (∀ v, table.putOn v = (put, v)) →
      (∀ v, chair.destroy v = v) → (∀ v, table.destroy v = v) →
      '\n' ∉ style.data → '\n' ∉ sit.data → '\n' ∉ put.data →
      (console f.displayProducts).map lines = some
        ["Created " ++ style ++ " furniture set:", " - Chair: " ++ sit,
          " - Table: " ++ put, ""]) ∧
    (console ModernFurnitureFactory.displayProducts).map lines = some
      ["Created Modern furniture set:", " - Chair: Sitting on a modern minimalist chair",
        " - Table: Putting items on a sleek modern table", ""] ∧
    (console VictorianFurnitureFactory.displayProducts).map lines = some
      ["Created Victorian furniture set:", " - Chair: Sitting on an ornate Victorian chair",
        " - Table: Putting items on an elegant Victorian table", ""] ∧
    (console ArtDecoFurnitureFactory.displayProducts).map lines = some
      ["Created Art Deco furniture set:", " - Chair: Sitting on a geometric Art Deco chair",
        " - Table: Putting items on a symmetrical Art Deco table", ""] := by
  refine ⟨fun f chair table style sit put w hc ht h1 h2 h3 h4 h5 =>
      displayProducts_eq f chair table style sit put w hc ht h1 h2 h3 h4 h5,
    fun f chair table style sit put hc ht h1 h2 h3 h4 h5 n1 n2 n3 => ?_,
    by decide, by decide, by decide⟩
  have e : console f.displayProducts = some (unlines
      ["Created " ++ style ++ " furniture set:", " - Chair: " ++ sit,
        " - Table: " ++ put, ""]) := by
    unfold console
    rw [displayProducts_eq f chair table style sit put World.empty hc ht h1 h2 h3 h4 h5]
    simp [OStream.write, World.empty]
  rw [e, Option.map_some', lines_unlines]
  intro l hl
  simp only [List.mem_cons, List.mem_singleton, List.not_mem_nil, or_false] at hl
  rcases hl with rfl | rfl | rfl | rfl
  · simp [String.data_append, n1]
  · simp [String.data_append, n2]
  · simp [String.data_append, n3]
  · simp

/-- C10, at a factory whose chair is Modern and whose table is Victorian: the
header says "Modern". -/
theorem displayProducts_four_lines_witness :
    MixedFurnitureFactory.displayProducts World.empty = some (OStream.cout.write (unlines
      ["Created Modern furniture set:", " - Chair: Sitting on a modern minimalist chair",
        " - Table: Putting items on an elegant Victorian table", ""]) World.empty) ∧
    (console MixedFurnitureFactory.displayProducts).map lines = some
      ["Created Modern furniture set:", " - Chair: Sitting on a modern minimalist chair",
        " - Table: Putting items on an elegant Victorian table", ""] :=
  ⟨displayProducts_four_lines.1 MixedFurnitureFactory ModernChair VictorianTable "Modern"
      "Sitting on a modern minimalist chair" "Putting items on an elegant Victorian table"
      World.empty rfl rfl (fun _ => rfl) (fun _ => rfl) (fun _ => rfl) (fun _ => rfl)
      (fun _ => rfl),
    displayProducts_four_lines.2.1 MixedFurnitureFactory ModernChair VictorianTable "Modern"
      "Sitting on a modern minimalist chair" "Putting items on an elegant Victorian table"
      rfl rfl (fun _ => rfl) (fun _ => rfl) (fun _ => rfl) (fun _ => rfl) (fun _ => rfl)
      (by decide) (by decide) (by decide)⟩

end AbstractFactory
